import Mathlib

/-!
Verification development for the narrative session engine.

Shallow embedding of the core modules:
  - core/narrativeEngine.js : phase classifier and HARD_ENDING_THRESHOLD
  - core/treeEngine.js      : graph store (addNode, addEdge, getChild, getPathToRoot)
  - core/gameEngine.js      : orchestrator (createSession, generateInitialOptions,
                              progressTurn, rollbackToNode, prefetchAllOptions,
                              applyStatePatch)

Modelling conventions:
  - JS objects become Lean structures; JS object maps become association lists
    keyed by String, with JS property assignment modelled by assocSet
    (replace-in-place or append) and JS delete by assocErase.
  - JS numbers are modelled as Int (the engine only does integer arithmetic);
    the JS idiom x || d on a number is jsNumOr (0 is falsy), and on a string
    is jsStrOr (the empty string is falsy).
  - Absent optional properties: object-valued ones are Option, string-valued
    ones are the empty string (JS truthiness tests treat both alike).
  - The generator collaborator (callPrompt3) is an oracle: each await of it is
    a GenResult parameter.  Code between two awaits runs atomically on the JS
    event loop, so every such block is one Lean function; concurrent schedules
    are explicit compositions of those blocks.
  - Date.now() is a Nat parameter tNow; crypto.randomUUID() is a String
    parameter (freshness is a hypothesis where it matters).
-/

namespace Narrive

/-- JS `x || d` for numbers: 0 is falsy. -/
def jsNumOr (x d : Int) : Int := if x = 0 then d else x

/-- JS `s || d` for strings: the empty string is falsy. -/
def jsStrOr (s d : String) : String := if s = "" then d else s

/-- JS object property assignment `m[k] = v`: replace in place, else append. -/
def assocSet {α : Type} (m : List (String × α)) (k : String) (v : α) :
    List (String × α) :=
  match m with
  | [] => [(k, v)]
  | (k', v') :: rest => if k' = k then (k, v) :: rest else (k', v') :: assocSet rest k v

/-- JS `delete m[k]`: remove the binding for `k` (no-op when absent). -/
def assocErase {α : Type} (m : List (String × α)) (k : String) :
    List (String × α) :=
  match m with
  | [] => []
  | (k', v') :: rest => if k' = k then rest else (k', v') :: assocErase rest k

/-- Progress clocks of the running state (`clocks: { win, lose }`). -/
structure Clocks where
  win : Int
  lose : Int
deriving DecidableEq

/-- Generator-declared clock deltas (`clockDelta: { track_win, track_lose }`). -/
structure ClockDelta where
  track_win : Int
  track_lose : Int
deriving DecidableEq

/-- Generator-declared state patch (`responseData.statePatch`).  List-valued
properties are Option because the source tests their presence (`if (patch.addFlags)`);
`locationChange` is a string whose truthiness test makes the empty string absent. -/
structure StatePatch where
  addFlags : Option (List String) := none
  removeFlags : Option (List String) := none
  addItems : Option (List String) := none
  removeItems : Option (List String) := none
  locationChange : String := ""
deriving DecidableEq

/-- The running game state (see createInitialState in core/gameEngine.js).
`isWinEnding` and `isLoseEnding` are absent until applyStatePatch first sets
them; absence is modelled as `false`. -/
structure GameState where
  location : String
  inventory : List String
  flags : List (String × Bool)
  eventLedger : List String
  clocks : Clocks
  tensionLevel : Int
  turnCount : Int
  isEnding : Bool
  isWinEnding : Bool := false
  isLoseEnding : Bool := false
deriving DecidableEq

/-- One selectable option (`{ id, text }`). -/
structure OptionItem where
  id : String
  text : String
deriving DecidableEq

/-- The parsed generator output consumed by the engine (untrusted).
String-valued optional fields use "" for absent, matching JS truthiness. -/
structure TurnData where
  text : String := ""
  options : List OptionItem := []
  statePatch : Option StatePatch := none
  clockDelta : Option ClockDelta := none
  turnSummary : String := ""
  tensionLevel : Int := 0
  isEnding : Bool := false
  endingType : String := ""
  nodeTitle : String := ""
  logicalReasoning : String := ""
deriving DecidableEq

/-- Outcome of one `await callPrompt3(...)`:
`{ ok: true, data }` or `{ ok: false, error }` (parse failures included). -/
inductive GenResult where
  | ok : TurnData → GenResult
  | error : String → GenResult
deriving DecidableEq

/-- HARD_ENDING_THRESHOLD from core/narrativeEngine.js. -/
def HARD_ENDING_THRESHOLD : Int := 4

/-- getNarrativePhaseKey from core/narrativeEngine.js. -/
def getNarrativePhaseKey (turnCount : Int) (clocks : Clocks) : String :=
  let maxClock := max (jsNumOr clocks.win 0) (jsNumOr clocks.lose 0)
  if HARD_ENDING_THRESHOLD ≤ maxClock ∨ 10 ≤ turnCount then "ENDING"
  else if 3 ≤ maxClock ∨ 7 ≤ turnCount then "ACT3"
  else if 1 ≤ maxClock ∨ 3 ≤ turnCount then "ACT2"
  else "ACT1"

/-- Rank of a phase key in story order (ACT1 < ACT2 < ACT3 < ENDING),
used to state monotonicity of the classifier. -/
def phaseRank (key : String) : Nat :=
  if key = "ACT1" then 0
  else if key = "ACT2" then 1
  else if key = "ACT3" then 2
  else 3

/-- createInitialState from core/gameEngine.js. -/
def createInitialState : GameState where
  location := ""
  inventory := []
  flags := []
  eventLedger := []
  clocks := { win := 0, lose := 0 }
  tensionLevel := 1
  turnCount := 0
  isEnding := false

/-- applyStatePatch from core/gameEngine.js, functionalized statement by
statement.  The two sequential hard-ending `if`s of the source become the
conditional fields at the end (each sets `isEnding`, and sets the win/lose
marker only when `responseData.endingType` is falsy). -/
def applyStatePatch (prevState : GameState) (responseData : TurnData) : GameState :=
  let patch := responseData.statePatch.getD {}
  let clocks := responseData.clockDelta.getD { track_win := 0, track_lose := 0 }
  -- 1. clocks update
  let win := jsNumOr prevState.clocks.win 0 + jsNumOr clocks.track_win 0
  let lose := jsNumOr prevState.clocks.lose 0 + jsNumOr clocks.track_lose 0
  -- 2. flags patch
  let flags1 := match patch.addFlags with
    | some fs => fs.foldl (fun m flag => if flag ≠ "" then assocSet m flag true else m)
        prevState.flags
    | none => prevState.flags
  let flags2 := match patch.removeFlags with
    | some fs => fs.foldl (fun m flag => assocErase m flag) flags1
    | none => flags1
  -- 3. inventory patch
  let inv1 := match patch.addItems with
    | some items => items.foldl
        (fun inv item => if item ≠ "" ∧ item ∉ inv then inv ++ [item] else inv)
        prevState.inventory
    | none => prevState.inventory
  let inv2 := match patch.removeItems with
    | some items => inv1.filter (fun item => item ∉ items)
    | none => inv1
  -- 4. location update
  let location := if patch.locationChange ≠ "" then patch.locationChange else prevState.location
  -- 5. meta and turn progression
  let turnCount := jsNumOr prevState.turnCount 0 + 1
  let ledger := if responseData.turnSummary ≠ ""
    then prevState.eventLedger ++ [responseData.turnSummary]
    else prevState.eventLedger
  let tension := jsNumOr responseData.tensionLevel (jsNumOr prevState.tensionLevel 1)
  -- 6. hard ending enforcement
  { location := location
    inventory := inv2
    flags := flags2
    eventLedger := ledger
    clocks := { win := win, lose := lose }
    tensionLevel := tension
    turnCount := turnCount
    isEnding := if HARD_ENDING_THRESHOLD ≤ win ∨ HARD_ENDING_THRESHOLD ≤ lose
      then true else responseData.isEnding
    isWinEnding := if HARD_ENDING_THRESHOLD ≤ win ∧ responseData.endingType = ""
      then true else prevState.isWinEnding
    isLoseEnding := if HARD_ENDING_THRESHOLD ≤ lose ∧ responseData.endingType = ""
      then true else prevState.isLoseEnding }

/-- Node metadata (`meta: { title, endingType? }`); absent endingType is "". -/
structure NodeMeta where
  title : String
  endingType : String := ""
deriving DecidableEq

/-- A StoryNode as built by the orchestrator.  `logicalReasoning` and
`turnSummary` default to "" for the construction sites that omit them. -/
structure Node where
  id : String
  parentId : Option String
  depth : Int
  text : String
  options : List OptionItem
  selectedOptionId : Option String
  stateSnapshot : GameState
  logicalReasoning : String := ""
  isEnding : Bool
  meta : NodeMeta
  visited : Bool
  turnSummary : String := ""
deriving DecidableEq

/-- A directed edge `{ from, optionId, to }` (from/to renamed: Lean keywords). -/
structure Edge where
  fromId : String
  optionId : String
  toId : String
deriving DecidableEq

/-- Theme colors of a session (presentation data, carried verbatim). -/
structure ThemeColor where
  initialThemeColor : String
  climaxThemeColor : String
  accentColor : String
deriving DecidableEq

/-- Synopsis block of a session (presentation data, carried verbatim). -/
structure Synopsis where
  publicWorld : String
  hiddenPlot : String
  openingText : String
  entryLabel : String
deriving DecidableEq

/-- LLM configuration (model + temperature; numeric value uninterpreted). -/
structure LLMConfig where
  model : String
  temperature : Int
deriving DecidableEq

/-- The GameSessionBlob.  `nodesById` is the JS object map id → Node as an
association list; `updatedAt`/`createdAt` are the Date.now() stamps. -/
structure Session where
  id : String
  title : String
  createdAt : Nat
  updatedAt : Nat
  themeColor : ThemeColor
  synopsis : Synopsis
  worldSchema : Option String
  llm : LLMConfig
  currentNodeId : String
  rootNodeId : String
  nodesById : List (String × Node)
  edges : List Edge
  gameState : GameState
deriving DecidableEq

/-- addNode from core/treeEngine.js: `session.nodesById[node.id] = node`
(unconditional, overwrites an existing binding). -/
def addNode (session : Session) (node : Node) : Session :=
  { session with nodesById := assocSet session.nodesById node.id node }

/-- addEdge from core/treeEngine.js: `session.edges.push({from, optionId, to})`
(unconditional append). -/
def addEdge (session : Session) (fromId optionId toId : String) : Session :=
  { session with edges := session.edges ++ [⟨fromId, optionId, toId⟩] }

/-- getChild from core/treeEngine.js, additionally returning the map key the
child is stored under (`edge.to`), so that JS mutations through the returned
object reference can be modelled precisely.  The source returns only the node. -/
def getChildEntry (session : Session) (parentId optionId : String) :
    Option (String × Node) :=
  match session.edges.find? (fun e => e.fromId == parentId && e.optionId == optionId) with
  | some edge =>
    match session.nodesById.lookup edge.toId with
    | some n => some (edge.toId, n)
    | none => none
  | none => none

/-- getChild from core/treeEngine.js: the first matching edge, then
`session.nodesById[edge.to] || null`. -/
def getChild (session : Session) (parentId optionId : String) : Option Node :=
  (getChildEntry session parentId optionId).map Prod.snd

/-- getChildren from core/treeEngine.js. -/
def getChildren (session : Session) (parentId : String) :
    List (String × Option Node) :=
  (session.edges.filter (fun e => e.fromId == parentId)).map
    (fun e => (e.optionId, session.nodesById.lookup e.toId))

/-- Loop body of getPathToRoot (`while (current) { path.unshift(current); ... }`),
with fuel so the Lean function is total; the source would diverge on a
parentId cycle, which no engine operation creates. -/
def pathToRootSteps (nodes : List (String × Node)) :
    Nat → Option String → List String → List String
  | 0, _, path => path
  | _ + 1, none, path => path
  | fuel + 1, some current, path =>
    if current = "" then path
    else
      let next := match nodes.lookup current with
        | some node => node.parentId
        | none => none
      pathToRootSteps nodes fuel next (current :: path)

/-- getPathToRoot from core/treeEngine.js (array of node ids, root first). -/
def getPathToRoot (session : Session) (nodeId : String) : List String :=
  pathToRootSteps session.nodesById (session.nodesById.length + 1) (some nodeId) []

/-- Parameters of createSession (destructured argument object). -/
structure CreateParams where
  title : String
  publicWorld : String
  hiddenPlot : String
  openingText : String
  entryLabel : String
  initialThemeColor : String := ""
  climaxThemeColor : String := ""
  accentColor : String := ""
  model : String
  temperature : Int
  worldSchema : Option String := none
deriving DecidableEq

/-- The root node literal createSession builds. -/
def createSessionRoot (p : CreateParams) (rootId : String) : Node :=
  let initialState := createInitialState
  { id := rootId
    parentId := none
    depth := 0
    text := p.openingText
    options := []
    selectedOptionId := none
    stateSnapshot := initialState
    isEnding := false
    meta := { title := "시작" }
    visited := true }

/-- createSession from core/gameEngine.js.  The two generateId() calls and
now() become the sessionId / rootId / timestamp parameters. -/
def createSession (p : CreateParams) (sessionId rootId : String) (timestamp : Nat) :
    Session :=
  let initialState := createInitialState
  let rootNode := createSessionRoot p rootId
  { id := sessionId
    title := p.title
    createdAt := timestamp
    updatedAt := timestamp
    themeColor := {
      initialThemeColor := jsStrOr p.initialThemeColor "#0f111a"
      climaxThemeColor := jsStrOr p.climaxThemeColor "#000000"
      accentColor := jsStrOr p.accentColor "#ff9e80" }
    synopsis := {
      publicWorld := p.publicWorld
      hiddenPlot := p.hiddenPlot
      openingText := p.openingText
      entryLabel := p.entryLabel }
    worldSchema := p.worldSchema
    llm := { model := p.model, temperature := p.temperature }
    currentNodeId := rootId
    rootNodeId := rootId
    nodesById := [(rootId, rootNode)]
    edges := []
    gameState := initialState }

/-- Result of generateInitialOptions.  `missingRoot` marks the path on which
the source would throw a TypeError (root id absent from nodesById); it is
modelled as an error with no mutation. -/
inductive InitResult where
  | ok : InitResult
  | genError : String → InitResult
  | missingRoot : InitResult
deriving DecidableEq

/-- The first-turn node literal generateInitialOptions builds (this
construction site has no logicalReasoning property, modelled as ""). -/
def initialTurnNode (s : Session) (rootNode : Node) (newId : String)
    (data : TurnData) : Node :=
  let newState := applyStatePatch s.gameState data
  { id := newId
    parentId := some rootNode.id
    depth := 1
    text := data.text
    options := data.options
    selectedOptionId := none
    stateSnapshot := newState
    isEnding := data.isEnding
    meta := {
      title := jsStrOr data.nodeTitle "Turn 1"
      endingType := if data.isEnding ∧ data.endingType ≠ "" then data.endingType else "" }
    visited := true
    turnSummary := data.turnSummary }

/-- generateInitialOptions from core/gameEngine.js.  `newId` is the
generateId() result and `tNow` the now() stamp; `gen` is the awaited
callPrompt3 outcome. -/
def generateInitialOptions (s : Session) (newId : String) (tNow : Nat)
    (gen : GenResult) : Session × InitResult :=
  match gen with
  | .error e => (s, .genError e)
  | .ok data =>
    match s.nodesById.lookup s.rootNodeId with
    | none => (s, .missingRoot)
    | some rootNode =>
      let newState := applyStatePatch s.gameState data
      let newNode := initialTurnNode s rootNode newId data
      let rootM := { rootNode with
        options := [⟨"start", "모험 시작"⟩, ⟨"new_start", "새 모험 시작"⟩],
        selectedOptionId := some "start" }
      let s1 := { s with nodesById := assocSet s.nodesById s.rootNodeId rootM }
      let s2 := addEdge (addNode s1 newNode) rootNode.id "start" newId
      ({ s2 with currentNodeId := newId, gameState := newState, updatedAt := tNow }, .ok)

/-- Result object of progressTurn:
`{ok:false,error:'Current node not found'}`, `{ok:false,error}` from the
generator, or `{ok:true, reused, node}`. -/
inductive TurnResult where
  | errorNoCurrent : TurnResult
  | genError : String → TurnResult
  | ok : Bool → Node → TurnResult
deriving DecidableEq

/-- Outcome of one progressTurn run: the session afterwards, the returned
result object, and whether the generator collaborator was invoked. -/
structure AdvanceOutcome where
  session : Session
  result : TurnResult
  llmCalled : Bool
deriving DecidableEq

/-- The reuse branch of progressTurn: set currentNodeId and gameState from
the existing child, stamp updatedAt, then `existingChild.visited = true`
(a mutation through the object reference stored at map key `key`). -/
def reuseCommit (s : Session) (key : String) (child : Node) (tNow : Nat) :
    AdvanceOutcome :=
  let s2 := { s with currentNodeId := child.id, gameState := child.stateSnapshot,
                     updatedAt := tNow }
  let s3 := { s2 with nodesById := assocSet s2.nodesById key { child with visited := true } }
  ⟨s3, .ok true { child with visited := true }, false⟩

/-- The node literal progressTurn builds on generator success
(`session.currentNodeId` is re-read at commit time for `parentId`). -/
def commitNode (s : Session) (currentNode : Node) (newId : String)
    (data : TurnData) : Node :=
  let newState := applyStatePatch currentNode.stateSnapshot data
  { id := newId
    parentId := some s.currentNodeId
    depth := currentNode.depth + 1
    text := data.text
    options := data.options
    selectedOptionId := none
    stateSnapshot := newState
    logicalReasoning := data.logicalReasoning
    isEnding := data.isEnding
    meta := {
      title := jsStrOr data.nodeTitle ("Turn " ++ toString newState.turnCount)
      endingType := if data.isEnding ∧ data.endingType ≠ "" then data.endingType else "" }
    visited := true
    turnSummary := data.turnSummary }

/-- The block of progressTurn that runs after `await callPrompt3` resolved
successfully: reduce state from the captured parent snapshot
(`currentNode.stateSnapshot || session.gameState`, the snapshot being always
present), build the node, insert node and edge unconditionally, and move the
session to the new node. -/
def progressTurnCommit (s : Session) (currentNode : Node) (optionId newId : String)
    (tNow : Nat) (data : TurnData) : AdvanceOutcome :=
  let parentState := currentNode.stateSnapshot
  let newState := applyStatePatch parentState data
  let newNode := commitNode s currentNode newId data
  let s2 := addEdge (addNode s newNode) s.currentNodeId optionId newId
  ⟨{ s2 with currentNodeId := newId, gameState := newState, updatedAt := tNow },
   .ok false newNode, true⟩

/-- Step 2 of progressTurn: compute the selected option (free-text custom
action or lookup in the captured current node), then await the generator;
an error result is returned with no further session mutation. -/
def progressTurnLLM (s : Session) (currentNode : Node)
    (optionId customText newId : String) (tNow : Nat) (gen : GenResult) :
    AdvanceOutcome :=
  let _selectedOption : Option OptionItem :=
    if optionId = "__custom__" ∧ customText ≠ "" then some ⟨"__custom__", customText⟩
    else currentNode.options.find? (fun o => o.id == optionId)
  match gen with
  | .error e => ⟨s, .genError e, true⟩
  | .ok data => progressTurnCommit s currentNode optionId newId tNow data

/-- Step 1 of progressTurn: `currentNode.selectedOptionId = optionId`, a
mutation through the object reference stored at the current map key. -/
def markSelectedOption (s0 : Session) (cn : Node) (optionId : String) : Session :=
  { s0 with nodesById :=
      assocSet s0.nodesById s0.currentNodeId { cn with selectedOptionId := some optionId } }

/-- progressTurn from core/gameEngine.js.  `inFlight` is the key set of the
module-level inFlightPrefetches map at the moment of the check, and
`prefetchAwait` is the session transformation performed by the awaited
prefetch promise before progressTurn resumes (the event loop runs it
atomically).  `customText` is "" when absent. -/
def progressTurn (inFlight : List String) (prefetchAwait : Session → Session)
    (s0 : Session) (optionId customText newId : String) (tNow : Nat)
    (gen : GenResult) : AdvanceOutcome :=
  match s0.nodesById.lookup s0.currentNodeId with
  | none => ⟨s0, .errorNoCurrent, false⟩
  | some currentNode0 =>
    let currentNode := { currentNode0 with selectedOptionId := some optionId }
    let s1 := markSelectedOption s0 currentNode0 optionId
    -- 1. check for existing child
    match getChildEntry s1 s1.currentNodeId optionId with
    | some (key, child) => reuseCommit s1 key child tNow
    | none =>
      -- 1.1 check for an in-flight prefetch on this (node, option) key
      let prefetchKey := s1.currentNodeId ++ ":" ++ optionId
      if prefetchKey ∈ inFlight then
        let s2 := prefetchAwait s1
        match getChildEntry s2 s2.currentNodeId optionId with
        | some (key, child) => reuseCommit s2 key child tNow
        | none => progressTurnLLM s2 currentNode optionId customText newId tNow gen
      else
        progressTurnLLM s1 currentNode optionId customText newId tNow gen

/-- Result of rollbackToNode: `{ok:true,node}` or `{ok:false,error:'Node not found'}`. -/
inductive RollbackResult where
  | ok : Node → RollbackResult
  | notFound : RollbackResult
deriving DecidableEq

/-- rollbackToNode from core/gameEngine.js. -/
def rollbackToNode (s : Session) (nodeId : String) (tNow : Nat) :
    Session × RollbackResult :=
  match s.nodesById.lookup nodeId with
  | none => (s, .notFound)
  | some node =>
    ({ s with currentNodeId := nodeId, gameState := node.stateSnapshot,
              updatedAt := tNow }, .ok node)

/-- The candidate node literal a prefetch task builds (visited := false,
parent data captured at pass start). -/
def prefetchNode (parentId : String) (parentDepth : Int) (parentState : GameState)
    (newId : String) (data : TurnData) : Node :=
  let newState := applyStatePatch parentState data
  { id := newId
    parentId := some parentId
    depth := parentDepth + 1
    text := data.text
    options := data.options
    selectedOptionId := none
    stateSnapshot := newState
    logicalReasoning := data.logicalReasoning
    isEnding := data.isEnding
    meta := {
      title := jsStrOr data.nodeTitle ("Turn " ++ toString newState.turnCount)
      endingType := if data.isEnding ∧ data.endingType ≠ "" then data.endingType else "" }
    visited := false
    turnSummary := data.turnSummary }

/-- The block of one prefetch task that runs after its `await callPrompt3`
resolved (attemptPrefetch in prefetchAllOptions): on failure nothing happens;
on success the candidate node is built from the captured parent data and
inserted only if `getChild` still finds no child for the key at commit time. -/
def prefetchCommit (s : Session) (parentId : String) (parentDepth : Int)
    (parentState : GameState) (opt : OptionItem) (newId : String)
    (gen : GenResult) : Session :=
  match gen with
  | .error _ => s
  | .ok data =>
    let newNode := prefetchNode parentId parentDepth parentState newId data
    match getChild s parentId opt.id with
    | some _ => s
    | none => addEdge (addNode s newNode) parentId opt.id newId

/-- One speculative prefetch task: its option, its generateId() result, and
its awaited generator outcome. -/
structure PrefetchUnit where
  opt : OptionItem
  newId : String
  gen : GenResult
deriving DecidableEq

/-- prefetchAllOptions from core/gameEngine.js.  The per-option tasks run
concurrently but each commit block is atomic on the event loop; `units`
lists the task outcomes in completion order.  The pass-start filter keeps
only options with no existing child; parent id, depth and snapshot are
captured once at pass start, exactly as in the source. -/
def prefetchPass (s : Session) (units : List PrefetchUnit) : Session :=
  match s.nodesById.lookup s.currentNodeId with
  | none => s
  | some currentNode =>
    if currentNode.options = [] ∨ currentNode.isEnding then s
    else
      let nodeId := currentNode.id
      let parentState := currentNode.stateSnapshot
      let optionsToFetch := currentNode.options.filter
        (fun o => (getChild s nodeId o.id).isNone)
      (units.filter (fun u => u.opt ∈ optionsToFetch)).foldl
        (fun acc u => prefetchCommit acc nodeId currentNode.depth parentState
          u.opt u.newId u.gen) s

/-- Number of edges stored for a `(parentId, optionId)` reuse key. -/
def edgeCount (s : Session) (parentId optionId : String) : Nat :=
  (s.edges.filter (fun e => e.fromId == parentId && e.optionId == optionId)).length

/-! Concrete fixtures used for witnesses and counterexamples. -/

/-- A root node with two options and no child yet. -/
def testNode : Node := {
  id := "a", parentId := none, depth := 0, text := "root",
  options := [⟨"o1", "go"⟩, ⟨"o2", "stay"⟩],
  selectedOptionId := none, stateSnapshot := createInitialState, isEnding := false,
  meta := { title := "t" }, visited := true }

/-- A one-node session sitting at `testNode`. -/
def testSession : Session := {
  id := "s", title := "T", createdAt := 0, updatedAt := 0,
  themeColor := ⟨"#0f111a", "#000000", "#ff9e80"⟩,
  synopsis := ⟨"pw", "hp", "op", "el"⟩, worldSchema := none,
  llm := ⟨"m", 0⟩, currentNodeId := "a", rootNodeId := "a",
  nodesById := [("a", testNode)], edges := [], gameState := createInitialState }

/-- A different node carrying the same id as `testNode`. -/
def testNodeDup : Node := { testNode with text := "other" }

/-- A generator output declaring a clock delta of (5, -3). -/
def bigDeltaData : TurnData := { clockDelta := some ⟨5, -3⟩ }

/-- A state one step below the win threshold. -/
def nearWinState : GameState := { createInitialState with clocks := ⟨3, 0⟩ }

/-- A generator output declaring a win delta of 1 and terminal = false. -/
def winStepData : TurnData := { clockDelta := some ⟨1, 0⟩, isEnding := false }

/-- A well-formed generator output for an ordinary turn. -/
def plainTurnData : TurnData := {
  text := "t1"
  options := [⟨"p1", "x"⟩]
  clockDelta := some ⟨1, 0⟩
  turnSummary := "sum"
  nodeTitle := "n1" }

/-- Invariant of claim C8: the current node id resolves and the running
gameState equals that node's stateSnapshot. -/
def StateSynced (s : Session) : Prop :=
  ∃ n, s.nodesById.lookup s.currentNodeId = some n ∧ s.gameState = n.stateSnapshot

/-- Auxiliary well-formedness: every node is stored under its own id. -/
def KeyedNodes (s : Session) : Prop :=
  ∀ p ∈ s.nodesById, (Prod.snd p).id = Prod.fst p

/-- A session-creation parameter fixture. -/
def testParams : CreateParams := {
  title := "T", publicWorld := "pw", hiddenPlot := "hp", openingText := "op",
  entryLabel := "el", model := "m", temperature := 0 }

/-- The session after the live advance of the race scenario ran its
synchronous prefix on testSession. -/
def raceMarked : Session := markSelectedOption testSession testNode "o1"

/-- Schedule A step: the prefetch task for option o1 commits first. -/
def racePrefetched : Session :=
  prefetchCommit raceMarked "a" 0 testNode.stateSnapshot ⟨"o1", "go"⟩ "p1"
    (.ok plainTurnData)

/-- Schedule A: the suspended advance then resumes and commits its own node
and edge without re-checking for the child. -/
def raceAdvanceAfterPrefetch : Session :=
  (progressTurnLLM racePrefetched { testNode with selectedOptionId := some "o1" }
    "o1" "" "a1" 9 (.ok plainTurnData)).session

/-- Schedule B: the advance commits first. -/
def raceAdvFirst : Session :=
  (progressTurnLLM raceMarked { testNode with selectedOptionId := some "o1" }
    "o1" "" "a1" 9 (.ok plainTurnData)).session

/-! Generic lemmas about the JS-map model. -/

theorem lookup_cons {α : Type} (k a : String) (v : α) (l : List (String × α)) :
    List.lookup k ((a, v) :: l) = if k = a then some v else List.lookup k l := by
  by_cases h : k = a
  · simp [List.lookup, h]
  · have hb : (k == a) = false := beq_eq_false_iff_ne.mpr h
    simp [List.lookup, hb, h]

theorem lookup_assocSet_self {α : Type} (m : List (String × α)) (k : String) (v : α) :
    (assocSet m k v).lookup k = some v := by
  induction m with
  | nil => simp [assocSet, lookup_cons]
  | cons p rest ih =>
    obtain ⟨k', v'⟩ := p
    by_cases h : k' = k
    · subst h; simp [assocSet, lookup_cons]
    · simp [assocSet, h, lookup_cons, ih, Ne.symm h]

theorem lookup_assocSet_ne {α : Type} (m : List (String × α)) (k k' : String) (v : α)
    (h : k' ≠ k) : (assocSet m k v).lookup k' = m.lookup k' := by
  induction m with
  | nil => simp [assocSet, lookup_cons, h]
  | cons p rest ih =>
    obtain ⟨a, b⟩ := p
    by_cases ha : a = k
    · subst ha; simp [assocSet, lookup_cons, h]
    · simp [assocSet, ha, lookup_cons, ih]

theorem jsNumOr_zero (x : Int) : jsNumOr x 0 = x := by
  unfold jsNumOr; split <;> omega

theorem find?_append_none {α : Type} (l1 l2 : List α) (p : α → Bool)
    (h : l1.find? p = none) : (l1 ++ l2).find? p = l2.find? p := by
  induction l1 with
  | nil => simp
  | cons x xs ih =>
    rw [List.find?_eq_none] at h
    have hx : ¬ p x = true := h x (by simp)
    have hxs : xs.find? p = none := List.find?_eq_none.mpr (fun y hy => h y (by simp [hy]))
    rw [List.cons_append, List.find?_cons_of_neg _ hx, ih hxs]

theorem find?_edges_none (edges : List Edge) (p o : String)
    (h : ∀ e ∈ edges, ¬(e.fromId = p ∧ e.optionId = o)) :
    edges.find? (fun e => e.fromId == p && e.optionId == o) = none := by
  rw [List.find?_eq_none]
  intro e he
  simp only [Bool.and_eq_true, beq_iff_eq]
  exact h e he

theorem getChildEntry_none (s : Session) (p o : String)
    (h : ∀ e ∈ s.edges, ¬(e.fromId = p ∧ e.optionId = o)) :
    getChildEntry s p o = none := by
  unfold getChildEntry
  rw [find?_edges_none s.edges p o h]

theorem markSelectedOption_currentNodeId (s0 : Session) (cn : Node) (o : String) :
    (markSelectedOption s0 cn o).currentNodeId = s0.currentNodeId := rfl

/-- Reduction of progressTurn to its generator path: when the current node
exists, no child exists for the key after marking, and no prefetch is in
flight for the key, progressTurn is its post-await block on the marked
session. -/
theorem progressTurn_to_llm (inFlight : List String) (eff : Session → Session)
    (s0 : Session) (optionId customText newId : String) (tNow : Nat) (gen : GenResult)
    (cn : Node)
    (h1 : s0.nodesById.lookup s0.currentNodeId = some cn)
    (h2 : getChildEntry (markSelectedOption s0 cn optionId) s0.currentNodeId optionId = none)
    (h3 : (s0.currentNodeId ++ ":" ++ optionId) ∉ inFlight) :
    progressTurn inFlight eff s0 optionId customText newId tNow gen
      = progressTurnLLM (markSelectedOption s0 cn optionId)
          { cn with selectedOptionId := some optionId } optionId customText newId tNow gen := by
  unfold progressTurn
  rw [h1]
  simp only [markSelectedOption_currentNodeId, h2, if_neg h3]

/-- Reduction of progressTurn to its reuse path: when the current node exists
and a child is found for the key after marking, progressTurn is the reuse
commit on the marked session, and the generator is never consulted. -/
theorem progressTurn_to_reuse (inFlight : List String) (eff : Session → Session)
    (s0 : Session) (optionId customText newId : String) (tNow : Nat) (gen : GenResult)
    (cn : Node) (key : String) (child : Node)
    (h1 : s0.nodesById.lookup s0.currentNodeId = some cn)
    (h2 : getChildEntry (markSelectedOption s0 cn optionId) s0.currentNodeId optionId
            = some (key, child)) :
    progressTurn inFlight eff s0 optionId customText newId tNow gen
      = reuseCommit (markSelectedOption s0 cn optionId) key child tNow := by
  unfold progressTurn
  rw [h1]
  simp only [markSelectedOption_currentNodeId, h2]

theorem progressTurnLLM_ok (s : Session) (cn : Node) (o ct id : String) (t : Nat)
    (data : TurnData) :
    progressTurnLLM s cn o ct id t (.ok data) = progressTurnCommit s cn o id t data := rfl

theorem progressTurnLLM_error (s : Session) (cn : Node) (o ct id : String) (t : Nat)
    (e : String) :
    progressTurnLLM s cn o ct id t (.error e) = ⟨s, .genError e, true⟩ := rfl

/-- Numeric characterization of the phase classifier, used for monotonicity. -/
theorem phaseRank_key (t w l : Int) :
    phaseRank (getNarrativePhaseKey t ⟨w, l⟩) =
      if 4 ≤ max w l ∨ 10 ≤ t then 3
      else if 3 ≤ max w l ∨ 7 ≤ t then 2
      else if 1 ≤ max w l ∨ 3 ≤ t then 1
      else 0 := by
  unfold getNarrativePhaseKey HARD_ENDING_THRESHOLD
  simp only [jsNumOr_zero]
  by_cases h1 : (4 : Int) ≤ max w l ∨ 10 ≤ t
  · rw [if_pos h1, if_pos h1]; decide
  · rw [if_neg h1, if_neg h1]
    by_cases h2 : (3 : Int) ≤ max w l ∨ 7 ≤ t
    · rw [if_pos h2, if_pos h2]; decide
    · rw [if_neg h2, if_neg h2]
      by_cases h3 : (1 : Int) ≤ max w l ∨ 3 ≤ t
      · rw [if_pos h3, if_pos h3]; decide
      · rw [if_neg h3, if_neg h3]; decide

/-- C2 counterexample: applyStatePatch applies the declared clock delta
unclamped.  From the all-zero initial state, a generator output declaring
`clockDelta = { track_win: 5, track_lose: -3 }` moves `clocks.win` up by 5
(more than 1) and moves `clocks.lose` down (a decrease), refuting both the
clamp to {0,1} and the non-decreasing property. -/
theorem C2_clock_clamp_cex :
    createInitialState.clocks.win = 0 ∧
    createInitialState.clocks.lose = 0 ∧
    (applyStatePatch createInitialState bigDeltaData).clocks.win = 5 ∧
    (applyStatePatch createInitialState bigDeltaData).clocks.lose = -3 := by
  decide

/-- C2 amended: applyStatePatch adds the generator-declared clock deltas
(defaulting to 0 when `clockDelta` is absent) to the previous counters with
no clamping; each counter changes by exactly the declared delta, so counters
are non-decreasing only when the generator declares non-negative deltas. -/
theorem C2_clock_delta_amended (prev : GameState) (resp : TurnData) :
    (applyStatePatch prev resp).clocks.win
        = prev.clocks.win + (resp.clockDelta.getD ⟨0, 0⟩).track_win ∧
    (applyStatePatch prev resp).clocks.lose
        = prev.clocks.lose + (resp.clockDelta.getD ⟨0, 0⟩).track_lose := by
  unfold applyStatePatch
  simp [jsNumOr_zero]

/-- C3 counterexample: addNode silently overwrites on id collision instead of
failing with DuplicateIdError, and addEdge appends a second edge for an
already-bound `(from, optionId)` key instead of failing with
DuplicateEdgeError. -/
theorem C3_graph_insert_cex :
    testSession.nodesById.lookup "a" = some testNode ∧
    testNodeDup ≠ testNode ∧
    (addNode testSession testNodeDup).nodesById.lookup "a" = some testNodeDup ∧
    edgeCount (addEdge (addEdge testSession "a" "o1" "b") "a" "o1" "c") "a" "o1" = 2 := by
  decide

/-- C3 amended: addNode inserts unconditionally, overwriting any existing
node stored under the same id, and addEdge appends unconditionally, so a
`(from, optionId)` key can hold several edges; duplicate avoidance is the
callers responsibility (they check getChild before inserting). -/
theorem C3_graph_insert_amended (s : Session) (n : Node) (f o t : String) :
    (addNode s n).nodesById = assocSet s.nodesById n.id n ∧
    (addNode s n).nodesById.lookup n.id = some n ∧
    (addNode s n).edges = s.edges ∧
    (addEdge s f o t).edges = s.edges ++ [⟨f, o, t⟩] ∧
    (addEdge s f o t).nodesById = s.nodesById := by
  refine ⟨rfl, ?_, rfl, rfl, rfl⟩
  exact lookup_assocSet_self s.nodesById n.id n

theorem getChildEntry_of_find (s : Session) (p o : String) (e : Edge)
    (hf : s.edges.find? (fun x => x.fromId == p && x.optionId == o) = some e)
    (n : Node) (hl : s.nodesById.lookup e.toId = some n) :
    getChildEntry s p o = some (e.toId, n) := by
  unfold getChildEntry
  rw [hf]
  simp [hl]

/-- C4 counterexample: a failed advance does not leave the session exactly as
it was.  On the concrete test session (current node has selectedOptionId =
none, no child for option o2), a generator failure returns an error result
but the session has changed: the current node now carries
selectedOptionId = some o2. -/
theorem C4_failed_advance_cex :
    (progressTurn [] id testSession "o2" "" "b1" 5 (.error "boom")).result
        = .genError "boom" ∧
    (progressTurn [] id testSession "o2" "" "b1" 5 (.error "boom")).session
        ≠ testSession ∧
    testNode.selectedOptionId = none ∧
    (progressTurn [] id testSession "o2" "" "b1" 5 (.error "boom")).session.nodesById.lookup "a"
        = some { testNode with selectedOptionId := some "o2" } := by
  decide

/-- C4 amended: when the generator (or parse) fails, progressTurn returns the
error result and mutates nothing except the current node, whose
selectedOptionId has already been set to the chosen option in step 1; the
graph (edges and all other nodes), currentNodeId, gameState and updatedAt
are exactly as before the call, so a retry is safe and cannot duplicate
turns. -/
theorem C4_failed_advance_amended (inFlight : List String) (eff : Session → Session)
    (s0 : Session) (optionId customText newId : String) (tNow : Nat) (e : String)
    (cn : Node)
    (h1 : s0.nodesById.lookup s0.currentNodeId = some cn)
    (h2 : getChildEntry (markSelectedOption s0 cn optionId) s0.currentNodeId optionId = none)
    (h3 : (s0.currentNodeId ++ ":" ++ optionId) ∉ inFlight) :
    (progressTurn inFlight eff s0 optionId customText newId tNow (.error e)).result
        = .genError e ∧
    (progressTurn inFlight eff s0 optionId customText newId tNow (.error e)).session.currentNodeId
        = s0.currentNodeId ∧
    (progressTurn inFlight eff s0 optionId customText newId tNow (.error e)).session.gameState
        = s0.gameState ∧
    (progressTurn inFlight eff s0 optionId customText newId tNow (.error e)).session.edges
        = s0.edges ∧
    (progressTurn inFlight eff s0 optionId customText newId tNow (.error e)).session.updatedAt
        = s0.updatedAt ∧
    (progressTurn inFlight eff s0 optionId customText newId tNow (.error e)).session.nodesById.lookup
        s0.currentNodeId = some { cn with selectedOptionId := some optionId } ∧
    (∀ k, k ≠ s0.currentNodeId →
      (progressTurn inFlight eff s0 optionId customText newId tNow (.error e)).session.nodesById.lookup k
        = s0.nodesById.lookup k) := by
  rw [progressTurn_to_llm inFlight eff s0 optionId customText newId tNow (.error e) cn
      h1 h2 h3, progressTurnLLM_error]
  refine ⟨rfl, rfl, rfl, rfl, rfl, ?_, ?_⟩
  · exact lookup_assocSet_self _ _ _
  · intro k hk
    exact lookup_assocSet_ne _ _ _ _ hk

/-- C4 witness: the amended no-mutation guarantees on the concrete session. -/
theorem C4_failed_advance_witness :
    (progressTurn [] id testSession "o2" "" "b1" 5 (.error "boom")).session.gameState
        = testSession.gameState ∧
    (progressTurn [] id testSession "o2" "" "b1" 5 (.error "boom")).session.edges
        = testSession.edges ∧
    (progressTurn [] id testSession "o2" "" "b1" 5 (.error "boom")).session.currentNodeId
        = testSession.currentNodeId := by
  have h := C4_failed_advance_amended [] id testSession "o2" "" "b1" 5 "boom" testNode
      (by decide) (by decide) (by decide)
  exact ⟨h.2.2.1, h.2.2.2.1, h.2.1⟩

/-- C5: reuse idempotence.  If an advance from a node with no existing child
for the chosen option succeeds with reused = false producing node T, then
advancing again on the same (node, option) after rolling back to that node
returns the very same node T with reused = true, calls the generator not at
all (llmCalled = false), and does so for an arbitrary second generator
oracle. -/
theorem C5_reuse_idempotent (eff eff2 : Session → Session) (inF2 : List String)
    (s0 : Session) (optionId customText customText2 newId newId2 : String)
    (t1 t2 t3 : Nat) (data : TurnData) (gen2 : GenResult) (cn : Node)
    (h1 : s0.nodesById.lookup s0.currentNodeId = some cn)
    (hNoEdge : ∀ e ∈ s0.edges, ¬(e.fromId = s0.currentNodeId ∧ e.optionId = optionId))
    (hFresh : s0.nodesById.lookup newId = none) :
    ∃ T,
      (progressTurn [] eff s0 optionId customText newId t1 (.ok data)).result
        = .ok false T ∧
      (progressTurn [] eff s0 optionId customText newId t1 (.ok data)).llmCalled = true ∧
      (progressTurn inF2 eff2
          (rollbackToNode
            (progressTurn [] eff s0 optionId customText newId t1 (.ok data)).session
            s0.currentNodeId t2).1
          optionId customText2 newId2 t3 gen2).result = .ok true T ∧
      (progressTurn inF2 eff2
          (rollbackToNode
            (progressTurn [] eff s0 optionId customText newId t1 (.ok data)).session
            s0.currentNodeId t2).1
          optionId customText2 newId2 t3 gen2).llmCalled = false := by
  have hNe : newId ≠ s0.currentNodeId := by
    intro he; rw [he, h1] at hFresh; exact Option.noConfusion hFresh
  have h2 : getChildEntry (markSelectedOption s0 cn optionId) s0.currentNodeId optionId
      = none := getChildEntry_none _ _ _ hNoEdge
  have e1 : progressTurn [] eff s0 optionId customText newId t1 (.ok data)
      = progressTurnCommit (markSelectedOption s0 cn optionId)
          { cn with selectedOptionId := some optionId } optionId newId t1 data := by
    rw [progressTurn_to_llm [] eff s0 optionId customText newId t1 (.ok data) cn h1 h2
        (by simp), progressTurnLLM_ok]
  set s1 := markSelectedOption s0 cn optionId with hs1def
  set cnM : Node := { cn with selectedOptionId := some optionId } with hcnMdef
  set nn := commitNode s1 cnM newId data with hnndef
  have hLookN : (progressTurnCommit s1 cnM optionId newId t1 data).session.nodesById.lookup
      s0.currentNodeId = some cnM := by
    show (assocSet (assocSet s0.nodesById s0.currentNodeId cnM) newId nn).lookup
        s0.currentNodeId = some cnM
    rw [lookup_assocSet_ne _ _ _ _ (Ne.symm hNe)]
    exact lookup_assocSet_self _ _ _
  have e2 : rollbackToNode (progressTurnCommit s1 cnM optionId newId t1 data).session
      s0.currentNodeId t2
      = ({ (progressTurnCommit s1 cnM optionId newId t1 data).session with
            currentNodeId := s0.currentNodeId, gameState := cnM.stateSnapshot,
            updatedAt := t2 }, .ok cnM) := by
    unfold rollbackToNode
    rw [hLookN]
  set s2 : Session := { (progressTurnCommit s1 cnM optionId newId t1 data).session with
      currentNodeId := s0.currentNodeId, gameState := cnM.stateSnapshot,
      updatedAt := t2 } with hs2def
  have e2' : (rollbackToNode (progressTurnCommit s1 cnM optionId newId t1 data).session
      s0.currentNodeId t2).1 = s2 := by rw [e2]
  have h1b : s2.nodesById.lookup s2.currentNodeId = some cnM := hLookN
  have hfind : ((markSelectedOption s2 cnM optionId).edges.find?
      (fun e : Edge => e.fromId == s2.currentNodeId && e.optionId == optionId))
      = some (Edge.mk s0.currentNodeId optionId newId) := by
    show ((s0.edges ++ [Edge.mk s0.currentNodeId optionId newId]).find?
      (fun e : Edge => e.fromId == s0.currentNodeId && e.optionId == optionId)) = _
    rw [find?_append_none _ _ _ (find?_edges_none s0.edges _ _ hNoEdge)]
    simp [List.find?]
  have hlook2 : (markSelectedOption s2 cnM optionId).nodesById.lookup newId = some nn := by
    show (assocSet s2.nodesById s2.currentNodeId cnM).lookup newId = some nn
    rw [lookup_assocSet_ne _ _ _ _ hNe]
    show (assocSet (assocSet s0.nodesById s0.currentNodeId cnM) newId nn).lookup newId
      = some nn
    exact lookup_assocSet_self _ _ _
  have h2b : getChildEntry (markSelectedOption s2 cnM optionId) s2.currentNodeId optionId
      = some (newId, nn) :=
    getChildEntry_of_find (markSelectedOption s2 cnM optionId) s2.currentNodeId optionId
      (Edge.mk s0.currentNodeId optionId newId) hfind nn hlook2
  have e3 : progressTurn inF2 eff2 s2 optionId customText2 newId2 t3 gen2
      = reuseCommit (markSelectedOption s2 cnM optionId) newId nn t3 :=
    progressTurn_to_reuse inF2 eff2 s2 optionId customText2 newId2 t3 gen2 cnM newId nn
      h1b h2b
  refine ⟨nn, ?_, ?_, ?_, ?_⟩
  · rw [e1]; rfl
  · rw [e1]; rfl
  · rw [e1, e2', e3]; rfl
  · rw [e1, e2', e3]; rfl

/-- C5 witness: reuse idempotence on the concrete test session (second
generator oracle even errors, and is never consulted). -/
theorem C5_reuse_idempotent_witness :
    ∃ T,
      (progressTurn [] id testSession "o1" "" "b1" 5 (.ok plainTurnData)).result
        = .ok false T ∧
      (progressTurn [] id testSession "o1" "" "b1" 5 (.ok plainTurnData)).llmCalled = true ∧
      (progressTurn [] id
          (rollbackToNode
            (progressTurn [] id testSession "o1" "" "b1" 5 (.ok plainTurnData)).session
            testSession.currentNodeId 6).1
          "o1" "" "b2" 7 (.error "no")).result = .ok true T ∧
      (progressTurn [] id
          (rollbackToNode
            (progressTurn [] id testSession "o1" "" "b1" 5 (.ok plainTurnData)).session
            testSession.currentNodeId 6).1
          "o1" "" "b2" 7 (.error "no")).llmCalled = false :=
  C5_reuse_idempotent id id [] testSession "o1" "" "" "b1" "b2" 5 6 7 plainTurnData
    (.error "no") testNode (by decide) (by decide) (by decide)

/-- C6: once the updated clocks reach or pass HARD_ENDING_THRESHOLD, the
state produced by applyStatePatch has isEnding = true, regardless of what
the generator declared (including isEnding = false). -/
theorem C6_hard_ending (prev : GameState) (resp : TurnData)
    (h : HARD_ENDING_THRESHOLD ≤ prev.clocks.win + (resp.clockDelta.getD ⟨0, 0⟩).track_win ∨
         HARD_ENDING_THRESHOLD ≤ prev.clocks.lose + (resp.clockDelta.getD ⟨0, 0⟩).track_lose) :
    (applyStatePatch prev resp).isEnding = true := by
  unfold applyStatePatch
  simp only [jsNumOr_zero]
  rw [if_pos h]

/-- C6 witness: from clocks (3,0), a declared win delta of 1 with
isEnding = false still produces a terminal state. -/
theorem C6_hard_ending_witness :
    (HARD_ENDING_THRESHOLD ≤
        nearWinState.clocks.win + (winStepData.clockDelta.getD ⟨0, 0⟩).track_win ∨
     HARD_ENDING_THRESHOLD ≤
        nearWinState.clocks.lose + (winStepData.clockDelta.getD ⟨0, 0⟩).track_lose) ∧
    winStepData.isEnding = false ∧
    (applyStatePatch nearWinState winStepData).isEnding = true :=
  ⟨by decide, by decide, C6_hard_ending nearWinState winStepData (by decide)⟩

/-- C7: getNarrativePhaseKey is a pure total function of the turn count and
the clock counters (it is a Lean function of exactly those inputs), and it
is monotone with respect to the phase order ACT1 < ACT2 < ACT3 < ENDING
(Opening < Rising < Climax < Resolution): increasing the turn count and the
counters never moves the phase backwards. -/
theorem C7_phase_monotonic (t1 t2 w1 w2 l1 l2 : Int)
    (ht : t1 ≤ t2) (hw : w1 ≤ w2) (hl : l1 ≤ l2) :
    phaseRank (getNarrativePhaseKey t1 ⟨w1, l1⟩) ≤
      phaseRank (getNarrativePhaseKey t2 ⟨w2, l2⟩) := by
  have hm : max w1 l1 ≤ max w2 l2 := max_le_max hw hl
  rw [phaseRank_key, phaseRank_key]
  generalize max w1 l1 = m1 at hm
  generalize max w2 l2 = m2 at hm
  split_ifs <;> omega

/-- C7 witness: the monotonicity theorem applied at (2, 0, 0) ≤ (8, 1, 0). -/
theorem C7_phase_monotonic_witness :
    (2 : Int) ≤ 8 ∧ (0 : Int) ≤ 1 ∧ (0 : Int) ≤ 0 ∧
    phaseRank (getNarrativePhaseKey 2 ⟨0, 0⟩) ≤ phaseRank (getNarrativePhaseKey 8 ⟨1, 0⟩) :=
  ⟨by decide, by decide, by decide,
   C7_phase_monotonic 2 8 0 1 0 0 (by decide) (by decide) (by decide)⟩

/-- C9: rollbackToNode fails exactly when the target id is absent from
nodesById, and then leaves the session untouched; on success it sets
currentNodeId to the target, copies the target stateSnapshot into gameState
with no recomputation, deletes no nodes or edges, and leaves getPathToRoot
unchanged for every node. -/
theorem C9_rollback (s : Session) (nodeId : String) (tNow : Nat) :
    ((rollbackToNode s nodeId tNow).2 = .notFound ↔ s.nodesById.lookup nodeId = none) ∧
    (s.nodesById.lookup nodeId = none → (rollbackToNode s nodeId tNow).1 = s) ∧
    (∀ node, s.nodesById.lookup nodeId = some node →
      (rollbackToNode s nodeId tNow).2 = .ok node ∧
      (rollbackToNode s nodeId tNow).1.currentNodeId = nodeId ∧
      (rollbackToNode s nodeId tNow).1.gameState = node.stateSnapshot ∧
      (rollbackToNode s nodeId tNow).1.nodesById = s.nodesById ∧
      (rollbackToNode s nodeId tNow).1.edges = s.edges ∧
      ∀ x, getPathToRoot (rollbackToNode s nodeId tNow).1 x = getPathToRoot s x) := by
  cases h : s.nodesById.lookup nodeId <;>
    simp [rollbackToNode, h, getPathToRoot]

/-- C9 witness: rollback to the existing node and to a missing id on the
concrete test session. -/
theorem C9_rollback_witness :
    (rollbackToNode testSession "a" 3).2 = .ok testNode ∧
    (rollbackToNode testSession "a" 3).1.gameState = testNode.stateSnapshot ∧
    (rollbackToNode testSession "zz" 3).1 = testSession := by
  have h := C9_rollback testSession "a" 3
  have h2 := C9_rollback testSession "zz" 3
  exact ⟨(h.2.2 testNode (by decide)).1, (h.2.2 testNode (by decide)).2.2.1,
         h2.2.1 (by decide)⟩

/-- C10: the terminal flag is not sticky.  The isEnding of the reduced state
never depends on the previous isEnding, and whenever both updated clocks are
below HARD_ENDING_THRESHOLD it equals exactly the generator-declared
isEnding, so a false declaration over an already-terminal state yields a
non-terminal state. -/
theorem C10_terminal_not_sticky (prev : GameState) (resp : TurnData) (b : Bool) :
    (applyStatePatch { prev with isEnding := b } resp).isEnding
      = (applyStatePatch prev resp).isEnding ∧
    (prev.clocks.win + (resp.clockDelta.getD ⟨0, 0⟩).track_win < HARD_ENDING_THRESHOLD →
     prev.clocks.lose + (resp.clockDelta.getD ⟨0, 0⟩).track_lose < HARD_ENDING_THRESHOLD →
     (applyStatePatch prev resp).isEnding = resp.isEnding) := by
  constructor
  · unfold applyStatePatch; simp
  · intro hw hl
    unfold applyStatePatch
    simp only [jsNumOr_zero]
    rw [if_neg]
    push_neg
    exact ⟨hw, hl⟩

/-- C10 witness: applying an isEnding = false output with zero deltas to an
already-terminal state (clocks below threshold) yields isEnding = false. -/
theorem C10_terminal_not_sticky_witness :
    ({ createInitialState with isEnding := true } : GameState).isEnding = true ∧
    (applyStatePatch { createInitialState with isEnding := true } ({} : TurnData)).isEnding
      = false := by
  have h := C10_terminal_not_sticky createInitialState ({} : TurnData) true
  refine ⟨by decide, ?_⟩
  rw [h.1, h.2 (by decide) (by decide)]

theorem lookup_mem {α : Type} (m : List (String × α)) (k : String) (v : α)
    (h : m.lookup k = some v) : (k, v) ∈ m := by
  induction m with
  | nil => simp [List.lookup] at h
  | cons p rest ih =>
    obtain ⟨a, b⟩ := p
    rw [lookup_cons] at h
    by_cases hk : k = a
    · rw [if_pos hk] at h
      subst hk
      cases h
      simp
    · rw [if_neg hk] at h
      simp [ih h]

theorem keyed_assocSet (m : List (String × Node)) (k : String) (v : Node)
    (hm : ∀ p ∈ m, (Prod.snd p).id = Prod.fst p) (hv : v.id = k) :
    ∀ p ∈ assocSet m k v, (Prod.snd p).id = Prod.fst p := by
  induction m with
  | nil => simp [assocSet]; exact hv
  | cons q rest ih =>
    obtain ⟨a, b⟩ := q
    by_cases ha : a = k
    · subst ha
      simp only [assocSet, if_pos rfl]
      intro p hp
      rcases List.mem_cons.mp hp with h | h
      · subst h; exact hv
      · exact hm p (List.mem_cons_of_mem _ h)
    · simp only [assocSet, if_neg ha]
      intro p hp
      rcases List.mem_cons.mp hp with h | h
      · subst h; exact hm (a, b) (List.mem_cons_self _ _)
      · exact ih (fun q hq => hm q (List.mem_cons_of_mem _ hq)) p h

theorem getChildEntry_lookup (s : Session) (p o : String) (k : String) (n : Node)
    (h : getChildEntry s p o = some (k, n)) : s.nodesById.lookup k = some n := by
  unfold getChildEntry at h
  cases hf : s.edges.find? (fun e => e.fromId == p && e.optionId == o) with
  | none => rw [hf] at h; simp at h
  | some edge =>
    rw [hf] at h
    cases hl : s.nodesById.lookup edge.toId with
    | none => simp [hl] at h
    | some m =>
      simp [hl] at h
      obtain ⟨hk, hm⟩ := h
      subst hk; subst hm
      exact hl

theorem createSession_synced (p : CreateParams) (sid rid : String) (ts : Nat) :
    StateSynced (createSession p sid rid ts) := by
  refine ⟨createSessionRoot p rid, ?_, rfl⟩
  show List.lookup rid [(rid, createSessionRoot p rid)] = some (createSessionRoot p rid)
  rw [lookup_cons, if_pos rfl]

theorem generateInitialOptions_synced (s : Session) (newId : String) (t : Nat)
    (gen : GenResult) (h : StateSynced s) :
    StateSynced (generateInitialOptions s newId t gen).1 := by
  cases gen with
  | error e => exact h
  | ok data =>
    unfold generateInitialOptions
    cases hr : s.nodesById.lookup s.rootNodeId with
    | none => exact h
    | some rootNode =>
      exact ⟨initialTurnNode s rootNode newId data,
        lookup_assocSet_self
          (assocSet s.nodesById s.rootNodeId
            { rootNode with
              options := [⟨"start", "모험 시작"⟩, ⟨"new_start", "새 모험 시작"⟩],
              selectedOptionId := some "start" })
          newId (initialTurnNode s rootNode newId data), rfl⟩

theorem rollbackToNode_synced (s : Session) (nid : String) (t : Nat)
    (h : StateSynced s) : StateSynced (rollbackToNode s nid t).1 := by
  cases hn : s.nodesById.lookup nid with
  | none => unfold rollbackToNode; rw [hn]; exact h
  | some node =>
    unfold rollbackToNode; rw [hn]
    exact ⟨node, hn, rfl⟩

theorem progressTurn_synced (eff : Session → Session) (s0 : Session)
    (optionId customText newId : String) (tNow : Nat) (gen : GenResult)
    (hS : StateSynced s0) (hK : KeyedNodes s0) :
    StateSynced (progressTurn [] eff s0 optionId customText newId tNow gen).session := by
  cases h1 : s0.nodesById.lookup s0.currentNodeId with
  | none => unfold progressTurn; rw [h1]; exact hS
  | some cn =>
    have hcn_id : cn.id = s0.currentNodeId := hK (s0.currentNodeId, cn) (lookup_mem _ _ _ h1)
    have hKs1 : KeyedNodes (markSelectedOption s0 cn optionId) :=
      keyed_assocSet s0.nodesById s0.currentNodeId _ hK hcn_id
    cases h2 : getChildEntry (markSelectedOption s0 cn optionId) s0.currentNodeId optionId with
    | some kc =>
      obtain ⟨key, child⟩ := kc
      rw [progressTurn_to_reuse [] eff s0 optionId customText newId tNow gen cn key child h1 h2]
      have hlk : (markSelectedOption s0 cn optionId).nodesById.lookup key = some child :=
        getChildEntry_lookup _ _ _ _ _ h2
      have hchild_id : child.id = key := hKs1 (key, child) (lookup_mem _ _ _ hlk)
      refine ⟨{ child with visited := true }, ?_, rfl⟩
      show (assocSet (markSelectedOption s0 cn optionId).nodesById key
          { child with visited := true }).lookup child.id
        = some { child with visited := true }
      rw [hchild_id]
      exact lookup_assocSet_self _ _ _
    | none =>
      rw [progressTurn_to_llm [] eff s0 optionId customText newId tNow gen cn h1 h2 (by simp)]
      cases gen with
      | error e =>
        rw [progressTurnLLM_error]
        obtain ⟨n, hn, hgs⟩ := hS
        refine ⟨{ cn with selectedOptionId := some optionId },
                lookup_assocSet_self _ _ _, ?_⟩
        show s0.gameState = cn.stateSnapshot
        rw [h1] at hn
        injection hn with hnn
        rw [hnn]
        exact hgs
      | ok data =>
        rw [progressTurnLLM_ok]
        exact ⟨commitNode (markSelectedOption s0 cn optionId)
                 { cn with selectedOptionId := some optionId } newId data,
               lookup_assocSet_self _ _ _, rfl⟩

theorem prefetchCommit_synced (s : Session) (pid : String) (pd : Int) (pst : GameState)
    (opt : OptionItem) (newId : String) (gen : GenResult)
    (h : StateSynced s) (hne : newId ≠ s.currentNodeId) :
    StateSynced (prefetchCommit s pid pd pst opt newId gen) ∧
    (prefetchCommit s pid pd pst opt newId gen).currentNodeId = s.currentNodeId := by
  cases gen with
  | error e => exact ⟨h, rfl⟩
  | ok data =>
    unfold prefetchCommit
    cases hc : getChild s pid opt.id with
    | some c => exact ⟨h, rfl⟩
    | none =>
      obtain ⟨n, hn, hgs⟩ := h
      refine ⟨⟨n, ?_, hgs⟩, rfl⟩
      show (assocSet s.nodesById newId (prefetchNode pid pd pst newId data)).lookup
        s.currentNodeId = some n
      rw [lookup_assocSet_ne _ _ _ _ (Ne.symm hne)]
      exact hn

theorem prefetchFold_synced (pid : String) (pd : Int) (pst : GameState)
    (units : List PrefetchUnit) :
    ∀ (acc : Session), StateSynced acc →
      (∀ u ∈ units, u.newId ≠ acc.currentNodeId) →
      StateSynced (units.foldl
        (fun a u => prefetchCommit a pid pd pst u.opt u.newId u.gen) acc) := by
  induction units with
  | nil => intro acc h _; exact h
  | cons u rest ih =>
    intro acc h hids
    have hu := prefetchCommit_synced acc pid pd pst u.opt u.newId u.gen h
      (hids u (List.mem_cons_self _ _))
    simp only [List.foldl_cons]
    exact ih _ hu.1 (fun v hv => hu.2 ▸ hids v (List.mem_cons_of_mem _ hv))

theorem prefetchPass_synced (s : Session) (units : List PrefetchUnit)
    (h : StateSynced s) (hids : ∀ u ∈ units, u.newId ≠ s.currentNodeId) :
    StateSynced (prefetchPass s units) := by
  unfold prefetchPass
  split
  · exact h
  · split
    · exact h
    · exact prefetchFold_synced _ _ _ _ s h
        (fun u hu => hids u (List.mem_filter.mp hu).1)

/-- C8: after every completed engine operation - createSession,
generateInitialOptions, an advance (successful, reused or failed, with no
in-flight prefetch on the key), rollback, and a prefetch pass whose fresh
ids do not collide with the current node id - the session satisfies the
invariant StateSynced: currentNodeId resolves to an existing node and
gameState equals that node's stateSnapshot.  The advance case additionally
assumes the nodes map stores each node under its own id (KeyedNodes), which
every engine construction site guarantees. -/
theorem C8_invariant_state_synced :
    (∀ (p : CreateParams) (sid rid : String) (ts : Nat),
        StateSynced (createSession p sid rid ts)) ∧
    (∀ (s : Session) (newId : String) (t : Nat) (gen : GenResult),
        StateSynced s → StateSynced (generateInitialOptions s newId t gen).1) ∧
    (∀ (eff : Session → Session) (s0 : Session) (optionId customText newId : String)
        (tNow : Nat) (gen : GenResult), StateSynced s0 → KeyedNodes s0 →
        StateSynced (progressTurn [] eff s0 optionId customText newId tNow gen).session) ∧
    (∀ (s : Session) (nid : String) (t : Nat),
        StateSynced s → StateSynced (rollbackToNode s nid t).1) ∧
    (∀ (s : Session) (units : List PrefetchUnit), StateSynced s →
        (∀ u ∈ units, u.newId ≠ s.currentNodeId) → StateSynced (prefetchPass s units)) :=
  ⟨createSession_synced, generateInitialOptions_synced,
   progressTurn_synced, rollbackToNode_synced, prefetchPass_synced⟩

/-- C8 witness: the invariant after each operation on concrete inputs. -/
theorem C8_invariant_state_synced_witness :
    StateSynced (createSession testParams "s1" "r1" 0) ∧
    StateSynced (generateInitialOptions testSession "g1" 1 (.ok plainTurnData)).1 ∧
    StateSynced (progressTurn [] id testSession "o1" "" "b1" 5 (.ok plainTurnData)).session ∧
    StateSynced (rollbackToNode testSession "a" 3).1 ∧
    StateSynced (prefetchPass testSession [⟨⟨"o1", "go"⟩, "p1", .ok plainTurnData⟩]) := by
  have hS : StateSynced testSession := ⟨testNode, by decide, by decide⟩
  have hK : KeyedNodes testSession := by unfold KeyedNodes; decide
  exact ⟨C8_invariant_state_synced.1 testParams "s1" "r1" 0,
         C8_invariant_state_synced.2.1 testSession "g1" 1 (.ok plainTurnData) hS,
         C8_invariant_state_synced.2.2.1 id testSession "o1" "" "b1" 5 (.ok plainTurnData) hS hK,
         C8_invariant_state_synced.2.2.2.1 testSession "a" 3 hS,
         C8_invariant_state_synced.2.2.2.2 testSession [⟨⟨"o1", "go"⟩, "p1", .ok plainTurnData⟩]
           hS (by decide)⟩

theorem prefetchCommit_discard (s : Session) (pid : String) (pd : Int) (pst : GameState)
    (opt : OptionItem) (newId : String) (gen : GenResult) (child : Node)
    (hc : getChild s pid opt.id = some child) :
    prefetchCommit s pid pd pst opt newId gen = s := by
  cases gen with
  | error e => rfl
  | ok data =>
    unfold prefetchCommit
    rw [hc]

/-- C1 counterexample: the (N, O1) key is not exactly-once under every
schedule.  Interleaving (all blocks atomic on the event loop): the live
advance runs its synchronous prefix on the test session (marks the option,
finds no child, finds no in-flight key) and suspends on its own generator
call; the prefetch pass then starts, sees no child for o1 either, launches
and its task commits first, inserting node p1 and edge (a, o1, p1); the
advance then resumes and, performing no existence check, inserts a second
node a1 and a second edge for the same (a, o1) key: two edges and two nodes
exist for the key afterwards. -/
theorem C1_race_cex :
    getChildEntry raceMarked "a" "o1" = none ∧
    ("a:o1" ∉ ([] : List String)) ∧
    getChild raceMarked "a" "o1" = none ∧
    edgeCount racePrefetched "a" "o1" = 1 ∧
    edgeCount raceAdvanceAfterPrefetch "a" "o1" = 2 ∧
    (raceAdvanceAfterPrefetch.nodesById.lookup "p1").isSome ∧
    (raceAdvanceAfterPrefetch.nodesById.lookup "a1").isSome := by
  decide

/-- C1 amended: only the prefetch side performs the existence check
immediately before insertion, so exactly-once holds when the live advance
commit happens first (or when the prefetch wins a race only against other
prefetches): a prefetch commit finding an existing child discards its
candidate and changes nothing, and in the advance-first schedule exactly one
edge exists for the key afterwards.  When the prefetch commits first against
an advance that already passed its checks, the advance inserts a duplicate
(see the counterexample). -/
theorem C1_race_amended :
    (∀ (s : Session) (pid : String) (pd : Int) (pst : GameState) (opt : OptionItem)
        (newId : String) (gen : GenResult) (child : Node),
        getChild s pid opt.id = some child →
        prefetchCommit s pid pd pst opt newId gen = s) ∧
    (∀ (s0 : Session) (cn : Node) (optionId customText advId otext prefId : String)
        (t : Nat) (dataA : TurnData) (pd : Int) (pst : GameState) (genP : GenResult),
        (∀ e ∈ s0.edges, ¬(e.fromId = s0.currentNodeId ∧ e.optionId = optionId)) →
        edgeCount
          (prefetchCommit
            (progressTurnLLM (markSelectedOption s0 cn optionId)
              { cn with selectedOptionId := some optionId } optionId customText advId t
              (.ok dataA)).session
            s0.currentNodeId pd pst ⟨optionId, otext⟩ prefId genP)
          s0.currentNodeId optionId = 1) := by
  constructor
  · exact prefetchCommit_discard
  · intro s0 cn optionId customText advId otext prefId t dataA pd pst genP hNoEdge
    have hedges : (progressTurnLLM (markSelectedOption s0 cn optionId)
        { cn with selectedOptionId := some optionId } optionId customText advId t
        (.ok dataA)).session.edges
        = s0.edges ++ [Edge.mk s0.currentNodeId optionId advId] := rfl
    have hfind : ((progressTurnLLM (markSelectedOption s0 cn optionId)
        { cn with selectedOptionId := some optionId } optionId customText advId t
        (.ok dataA)).session.edges.find?
          (fun e : Edge => e.fromId == s0.currentNodeId && e.optionId == optionId))
        = some (Edge.mk s0.currentNodeId optionId advId) := by
      rw [hedges, find?_append_none _ _ _ (find?_edges_none s0.edges _ _ hNoEdge)]
      simp [List.find?]
    have hlook : (progressTurnLLM (markSelectedOption s0 cn optionId)
        { cn with selectedOptionId := some optionId } optionId customText advId t
        (.ok dataA)).session.nodesById.lookup advId
        = some (commitNode (markSelectedOption s0 cn optionId)
            { cn with selectedOptionId := some optionId } advId dataA) := by
      show (assocSet (markSelectedOption s0 cn optionId).nodesById advId
          (commitNode (markSelectedOption s0 cn optionId)
            { cn with selectedOptionId := some optionId } advId dataA)).lookup advId
        = some (commitNode (markSelectedOption s0 cn optionId)
            { cn with selectedOptionId := some optionId } advId dataA)
      exact lookup_assocSet_self _ _ _
    have hchild : getChild ((progressTurnLLM (markSelectedOption s0 cn optionId)
        { cn with selectedOptionId := some optionId } optionId customText advId t
        (.ok dataA)).session) s0.currentNodeId optionId
        = some (commitNode (markSelectedOption s0 cn optionId)
            { cn with selectedOptionId := some optionId } advId dataA) := by
      unfold getChild
      rw [getChildEntry_of_find _ _ _ (Edge.mk s0.currentNodeId optionId advId) hfind _ hlook]
      rfl
    rw [prefetchCommit_discard _ _ _ _ _ _ _ _ hchild]
    have h0 : s0.edges.filter
        (fun e : Edge => e.fromId == s0.currentNodeId && e.optionId == optionId) = [] := by
      rw [List.filter_eq_nil_iff]
      intro e he
      simp only [Bool.and_eq_true, beq_iff_eq]
      exact hNoEdge e he
    unfold edgeCount
    rw [hedges, List.filter_append, h0]
    simp [List.filter]

/-- C1 witness: the discard and the advance-first schedule on the concrete
race fixtures. -/
theorem C1_race_amended_witness :
    prefetchCommit raceAdvFirst "a" 0 testNode.stateSnapshot ⟨"o1", "go"⟩ "p1"
        (.ok plainTurnData) = raceAdvFirst ∧
    edgeCount (prefetchCommit raceAdvFirst "a" 0 testNode.stateSnapshot ⟨"o1", "go"⟩ "p1"
        (.ok plainTurnData)) "a" "o1" = 1 :=
  ⟨C1_race_amended.1 raceAdvFirst "a" 0 testNode.stateSnapshot ⟨"o1", "go"⟩ "p1"
      (.ok plainTurnData)
      (commitNode raceMarked { testNode with selectedOptionId := some "o1" } "a1" plainTurnData)
      (by decide),
   C1_race_amended.2 testSession testNode "o1" "" "a1" "go" "p1" 9 plainTurnData 0
      testNode.stateSnapshot (.ok plainTurnData) (by decide)⟩

end Narrive
